import Mathlib

/-!
Verification of `highlight-hero-creator`: two helper functions that push a
local video to a social platform.

* `src/instagram_uploader.py` — `upload_to_instagram`: create a media
  container via the Graph API, then publish it.
* `src/youtube_uploader.py` — `upload_to_youtube`: one authenticated insert
  call with metadata.

The network is modelled as an environment function mapping each outgoing
request to the response the platform returns.  Each uploader returns, besides
its Python result, the list of HTTP requests it issued, so that claims about
which endpoints were contacted ("publish is never invoked") are statable.
-/

namespace HighlightHero

/-- JSON values, as produced by `res.json()` on a `requests` response. -/
inductive JValue where
  | null : JValue
  | bool : Bool → JValue
  | num : Int → JValue
  | str : String → JValue
  | arr : List JValue → JValue
  | obj : List (String × JValue) → JValue

/-- `d.get k` on a parsed JSON dict: the value at key `k`, or `none` (Python
`None`) when the key is absent or the value is not a dict. -/
def JValue.get : JValue → String → Option JValue
  | JValue.obj fields, k => fields.lookup k
  | _, _ => none

/-- Python truthiness of a JSON value: `None`, `False`, `0`, `""`, `[]` and
`\x7b\x7d` are falsy, everything else is truthy. -/
def pyTruthy : JValue → Bool
  | JValue.null => false
  | JValue.bool b => b
  | JValue.num n => n != 0
  | JValue.str s => s != ""
  | JValue.arr l => !l.isEmpty
  | JValue.obj l => !l.isEmpty

/-- Python truthiness of `d.get k`, which may be `None` (absent key). -/
def optTruthy : Option JValue → Bool
  | none => false
  | some v => pyTruthy v

/-- A form-encoded POST request: target URL plus the `data` dict. -/
structure HttpRequest where
  url : String
  data : List (String × JValue)

/-- An HTTP response as seen through `requests`: `status_code`, the raw body
`text`, and `json` — the body as parsed by `res.json()`. -/
structure HttpResponse where
  status_code : Nat
  text : String
  json : JValue

/-- The two exceptions raised by `upload_to_instagram`.  Each carries the raw
response body text, the exception's second positional argument. -/
inductive IgError where
  | creationError : String → IgError
  | publishError : String → IgError
deriving DecidableEq

/-- The first positional argument of the raised Python `Exception`. -/
def IgError.label : IgError → String
  | IgError.creationError _ => "Error creating container"
  | IgError.publishError _ => "Error publishing video"

/-- The raw response body carried by the exception (its second argument). -/
def IgError.body : IgError → String
  | IgError.creationError t => t
  | IgError.publishError t => t

/-- The container-creation request built by `upload_to_instagram`:
URL `https://graph-video.facebook.com/v17.0/\x7big_user_id\x7d/media` with
form fields `video_url`, `caption` and `access_token`. -/
def igCreateReq (video_path access_token ig_user_id : String) : HttpRequest :=
  { url := "https://graph-video.facebook.com/v17.0/" ++ ig_user_id ++ "/media"
    data := [("video_url", JValue.str video_path),
             ("caption", JValue.str "Posted via AI backend!"),
             ("access_token", JValue.str access_token)] }

/-- The publish request built by `upload_to_instagram`:
URL `https://graph.facebook.com/v17.0/\x7big_user_id\x7d/media_publish` with
form fields `creation_id` and `access_token`. -/
def igPublishReq (access_token ig_user_id : String) (container_id : JValue) :
    HttpRequest :=
  { url := "https://graph.facebook.com/v17.0/" ++ ig_user_id ++ "/media_publish"
    data := [("creation_id", container_id),
             ("access_token", JValue.str access_token)] }

/-- `upload_to_instagram` from `src/instagram_uploader.py`, with the network
abstracted as `net`.  Returns the Python outcome (normal return value or
raised exception) together with the list of POST requests issued, in order. -/
def upload_to_instagram (video_path access_token ig_user_id : String)
    (net : HttpRequest → HttpResponse) :
    Except IgError JValue × List HttpRequest :=
  let req1 := igCreateReq video_path access_token ig_user_id
  let res := net req1
  let container_id := res.json.get "id"
  if ¬ optTruthy container_id then
    (Except.error (IgError.creationError res.text), [req1])
  else
    let cid := container_id.getD JValue.null
    let req2 := igPublishReq access_token ig_user_id cid
    let res2 := net req2
    if res2.status_code ≠ 200 then
      (Except.error (IgError.publishError res2.text), [req1, req2])
    else
      (Except.ok res2.json, [req1, req2])

/-- A scoped service-account credential, as produced by
`service_account.Credentials.from_service_account_file`. -/
structure Credentials where
  key_file : String
  scopes : List String
deriving DecidableEq, Repr

/-- The media body of the upload, `MediaFileUpload(video_path)`. -/
structure MediaUpload where
  path : String
deriving DecidableEq, Repr

/-- The insert request built by `youtube.videos().insert(...)`: the service's
credential, the `part` string, the metadata `body` dict, and the media body. -/
structure InsertRequest where
  credentials : Credentials
  part : String
  body : JValue
  media_body : MediaUpload

/-- The insert request that `upload_to_youtube` constructs for the given
arguments. -/
def ytInsertReq (video_path title description credentials_json : String) :
    InsertRequest :=
  { credentials := { key_file := credentials_json
                     scopes := ["https://www.googleapis.com/auth/youtube.upload"] }
    part := "snippet,status"
    body := JValue.obj
      [("snippet", JValue.obj
          [("title", JValue.str title),
           ("description", JValue.str description),
           ("tags", JValue.arr
              [JValue.str "AI", JValue.str "Video", JValue.str "Generated"]),
           ("categoryId", JValue.str "22")]),
       ("status", JValue.obj [("privacyStatus", JValue.str "unlisted")])]
    media_body := { path := video_path } }

/-- `upload_to_youtube` from `src/youtube_uploader.py`, with `request.execute()`
abstracted as `execute`.  Returns `response["id"]` (`none` models the
`KeyError` raised when the response has no `id` field) together with the list
of insert requests constructed. -/
def upload_to_youtube (video_path title description credentials_json : String)
    (execute : InsertRequest → JValue) :
    Option JValue × List InsertRequest :=
  let request := ytInsertReq video_path title description credentials_json
  let response := execute request
  (response.get "id", [request])

/-! Concrete network environments used to exercise the uploaders. -/

/-- Platform behaving as in the spec's success scenario: container creation
answers with id `17895`, publish answers 200 with body id `final123`. -/
def netOk : HttpRequest → HttpResponse := fun r =>
  if r.url = "https://graph-video.facebook.com/v17.0/u1/media" then
    { status_code := 200, text := "create-body"
      json := JValue.obj [("id", JValue.str "17895")] }
  else
    { status_code := 200, text := "publish-body"
      json := JValue.obj [("id", JValue.str "final123")] }

/-- Platform whose container-creation response is an empty JSON object. -/
def netNoId : HttpRequest → HttpResponse := fun r =>
  if r.url = "https://graph-video.facebook.com/v17.0/u1/media" then
    { status_code := 200, text := "empty-create-body", json := JValue.obj [] }
  else
    { status_code := 200, text := "publish-body"
      json := JValue.obj [("id", JValue.str "final123")] }

/-- Platform that creates the container but answers the publish request with
HTTP 500. -/
def netPublish500 : HttpRequest → HttpResponse := fun r =>
  if r.url = "https://graph-video.facebook.com/v17.0/u1/media" then
    { status_code := 200, text := "create-body"
      json := JValue.obj [("id", JValue.str "17895")] }
  else
    { status_code := 500, text := "server-error-body"
      json := JValue.obj [] }

/-- Platform whose container-creation response has status 500 but still
carries an id in its body; publish answers 200. -/
def netCreate500 : HttpRequest → HttpResponse := fun r =>
  if r.url = "https://graph-video.facebook.com/v17.0/u1/media" then
    { status_code := 500, text := "create-500-body"
      json := JValue.obj [("id", JValue.str "17895")] }
  else
    { status_code := 200, text := "publish-body"
      json := JValue.obj [("id", JValue.str "final123")] }

/-- Platform whose container-creation response carries `id` bound to the given
value `v`; publish answers 200. -/
def netIdValue (v : JValue) : HttpRequest → HttpResponse := fun r =>
  if r.url = "https://graph-video.facebook.com/v17.0/u1/media" then
    { status_code := 200, text := "falsy-id-body"
      json := JValue.obj [("id", v)] }
  else
    { status_code := 200, text := "publish-body"
      json := JValue.obj [("id", JValue.str "final123")] }

/-! Theorems. -/

/-- The creation URL and the publish URL differ for every user id: their
lengths differ by two. -/
theorem igCreateReq_url_ne_publish_url (vp tok uid : String) :
    (igCreateReq vp tok uid).url ≠
      "https://graph.facebook.com/v17.0/" ++ uid ++ "/media_publish" := by
  intro h
  have hl := congrArg String.length h
  have e1 : ("https://graph-video.facebook.com/v17.0/" : String).length = 39 := rfl
  have e2 : ("/media" : String).length = 6 := rfl
  have e3 : ("https://graph.facebook.com/v17.0/" : String).length = 33 := rfl
  have e4 : ("/media_publish" : String).length = 14 := rfl
  simp only [igCreateReq, String.length_append, e1, e2, e3, e4] at hl
  omega

/-- C1: if the container-creation response body carries a truthy `id` field
and the publish response has status 200, `upload_to_instagram` returns the
parsed JSON body of the publish response, having issued exactly the creation
request followed by the publish request. -/
theorem instagram_success_returns_publish_json
    (vp tok uid : String) (net : HttpRequest → HttpResponse) (cid : JValue)
    (hget : (net (igCreateReq vp tok uid)).json.get "id" = some cid)
    (hcid : pyTruthy cid = true)
    (hstatus : (net (igPublishReq tok uid cid)).status_code = 200) :
    upload_to_instagram vp tok uid net =
      (Except.ok (net (igPublishReq tok uid cid)).json,
       [igCreateReq vp tok uid, igPublishReq tok uid cid]) := by
  unfold upload_to_instagram
  simp [hget, optTruthy, hcid, hstatus]

/-- C1 witness: on the spec's success scenario the call returns the publish
body containing id `final123`. -/
theorem instagram_success_returns_publish_json_witness :
    upload_to_instagram "v.mp4" "tok" "u1" netOk =
      (Except.ok (JValue.obj [("id", JValue.str "final123")]),
       [igCreateReq "v.mp4" "tok" "u1",
        igPublishReq "tok" "u1" (JValue.str "17895")]) :=
  instagram_success_returns_publish_json "v.mp4" "tok" "u1" netOk
    (JValue.str "17895") rfl rfl rfl

/-- C2: if the container-creation response body has no `id` field, the call
raises the exception labelled "Error creating container" carrying the raw
text of the creation response body. -/
theorem instagram_missing_id_raises_creation_error
    (vp tok uid : String) (net : HttpRequest → HttpResponse)
    (hget : (net (igCreateReq vp tok uid)).json.get "id" = none) :
    (upload_to_instagram vp tok uid net).1 =
      Except.error (IgError.creationError (net (igCreateReq vp tok uid)).text)
    ∧ (IgError.creationError (net (igCreateReq vp tok uid)).text).label =
        "Error creating container"
    ∧ (IgError.creationError (net (igCreateReq vp tok uid)).text).body =
        (net (igCreateReq vp tok uid)).text := by
  unfold upload_to_instagram
  simp [hget, optTruthy, IgError.label, IgError.body]

/-- C2 witness: the empty-object creation response raises the creation
exception carrying the raw body. -/
theorem instagram_missing_id_raises_creation_error_witness :
    (upload_to_instagram "v.mp4" "tok" "u1" netNoId).1 =
      Except.error (IgError.creationError "empty-create-body")
    ∧ (IgError.creationError "empty-create-body").label =
        "Error creating container"
    ∧ (IgError.creationError "empty-create-body").body = "empty-create-body" :=
  instagram_missing_id_raises_creation_error "v.mp4" "tok" "u1" netNoId rfl

/-- C3: if the container-creation response body has no `id` field, the
publish endpoint is never contacted: the number of issued requests whose URL
is the media_publish URL is zero. -/
theorem instagram_missing_id_no_publish_call
    (vp tok uid : String) (net : HttpRequest → HttpResponse)
    (hget : (net (igCreateReq vp tok uid)).json.get "id" = none) :
    ((upload_to_instagram vp tok uid net).2.countP
      (fun r => r.url ==
        "https://graph.facebook.com/v17.0/" ++ uid ++ "/media_publish")) = 0 := by
  unfold upload_to_instagram
  have hb : ((igCreateReq vp tok uid).url ==
      "https://graph.facebook.com/v17.0/" ++ uid ++ "/media_publish") = false :=
    beq_eq_false_iff_ne.mpr (igCreateReq_url_ne_publish_url vp tok uid)
  simp only [hget, optTruthy, not_false_eq_true, if_pos, ite_true]
  simp [List.countP, List.countP.go, hb]

/-- C3 witness: with the empty-object creation response, zero requests go to
the publish endpoint. -/
theorem instagram_missing_id_no_publish_call_witness :
    ((upload_to_instagram "v.mp4" "tok" "u1" netNoId).2.countP
      (fun r => r.url ==
        "https://graph.facebook.com/v17.0/" ++ "u1" ++ "/media_publish")) = 0 :=
  instagram_missing_id_no_publish_call "v.mp4" "tok" "u1" netNoId rfl

/-- C4: if the creation response carries a truthy `id` but the publish
response status is not 200, the call raises the exception labelled
"Error publishing video" carrying the raw text of the publish response
body. -/
theorem instagram_publish_non200_raises_publish_error
    (vp tok uid : String) (net : HttpRequest → HttpResponse) (cid : JValue)
    (hget : (net (igCreateReq vp tok uid)).json.get "id" = some cid)
    (hcid : pyTruthy cid = true)
    (hstatus : (net (igPublishReq tok uid cid)).status_code ≠ 200) :
    (upload_to_instagram vp tok uid net).1 =
      Except.error (IgError.publishError (net (igPublishReq tok uid cid)).text)
    ∧ (IgError.publishError (net (igPublishReq tok uid cid)).text).label =
        "Error publishing video"
    ∧ (IgError.publishError (net (igPublishReq tok uid cid)).text).body =
        (net (igPublishReq tok uid cid)).text := by
  unfold upload_to_instagram
  simp [hget, optTruthy, hcid, hstatus, IgError.label, IgError.body]

/-- C4 witness: the spec's 500-publish scenario raises the publish exception
carrying the 500 body. -/
theorem instagram_publish_non200_raises_publish_error_witness :
    (upload_to_instagram "v.mp4" "tok" "u1" netPublish500).1 =
      Except.error (IgError.publishError "server-error-body")
    ∧ (IgError.publishError "server-error-body").label =
        "Error publishing video"
    ∧ (IgError.publishError "server-error-body").body = "server-error-body" :=
  instagram_publish_non200_raises_publish_error "v.mp4" "tok" "u1"
    netPublish500 (JValue.str "17895") rfl rfl (by decide)

/-- C5: if the executed insert response carries an `id` field,
`upload_to_youtube` returns exactly its value. -/
theorem youtube_success_returns_id
    (vp t d cj : String) (execute : InsertRequest → JValue) (idv : JValue)
    (hid : (execute (ytInsertReq vp t d cj)).get "id" = some idv) :
    (upload_to_youtube vp t d cj execute).1 = some idv := by
  unfold upload_to_youtube
  simp [hid]

/-- C5 witness: an insert response with id `yt123` makes the call return
`yt123`. -/
theorem youtube_success_returns_id_witness :
    (upload_to_youtube "v.mp4" "my title" "my description" "cred.json"
      (fun _ => JValue.obj [("id", JValue.str "yt123")])).1 =
      some (JValue.str "yt123") :=
  youtube_success_returns_id "v.mp4" "my title" "my description" "cred.json"
    (fun _ => JValue.obj [("id", JValue.str "yt123")]) (JValue.str "yt123") rfl

/-- C6: `upload_to_youtube` constructs exactly one insert request, whose body
holds the caller's title and description, the fixed tags `AI, Video,
Generated`, the fixed category `22`, the fixed privacy status `unlisted`, and
the video file as media body; its credential is built from the given key file
with the single upload scope. -/
theorem youtube_constructs_single_request
    (vp t d cj : String) (execute : InsertRequest → JValue) :
    (upload_to_youtube vp t d cj execute).2 =
      [{ credentials :=
           { key_file := cj
             scopes := ["https://www.googleapis.com/auth/youtube.upload"] }
         part := "snippet,status"
         body := JValue.obj
           [("snippet", JValue.obj
               [("title", JValue.str t),
                ("description", JValue.str d),
                ("tags", JValue.arr
                   [JValue.str "AI", JValue.str "Video",
                    JValue.str "Generated"]),
                ("categoryId", JValue.str "22")]),
            ("status", JValue.obj [("privacyStatus", JValue.str "unlisted")])]
         media_body := { path := vp } }] := rfl

/-- C7: the status code of the container-creation response is never
inspected: whenever the creation response body carries a truthy `id`, the
publish request is issued, with no hypothesis at all on the creation
response's status code. -/
theorem instagram_creation_status_ignored
    (vp tok uid : String) (net : HttpRequest → HttpResponse) (cid : JValue)
    (hget : (net (igCreateReq vp tok uid)).json.get "id" = some cid)
    (hcid : pyTruthy cid = true) :
    (upload_to_instagram vp tok uid net).2 =
      [igCreateReq vp tok uid, igPublishReq tok uid cid] := by
  unfold upload_to_instagram
  by_cases hs : (net (igPublishReq tok uid cid)).status_code = 200 <;>
    simp [hget, optTruthy, hcid, hs]

/-- C7 witness: a creation response with status 500 whose body still carries
an id leads to the publish request being issued. -/
theorem instagram_creation_status_ignored_witness :
    (upload_to_instagram "v.mp4" "tok" "u1" netCreate500).2 =
      [igCreateReq "v.mp4" "tok" "u1",
       igPublishReq "tok" "u1" (JValue.str "17895")] :=
  instagram_creation_status_ignored "v.mp4" "tok" "u1" netCreate500
    (JValue.str "17895") rfl rfl

/-- C8 counterexample: in the spec's success scenario the return value of
`upload_to_instagram` is the whole parsed publish body, which is not the
platform video identifier value `final123` itself. -/
theorem instagram_returns_body_not_bare_id :
    (upload_to_instagram "v.mp4" "tok" "u1" netOk).1 =
      Except.ok (JValue.obj [("id", JValue.str "final123")])
    ∧ JValue.obj [("id", JValue.str "final123")] ≠ JValue.str "final123" :=
  ⟨rfl, fun h => JValue.noConfusion h⟩

/-- C8 (amended): on success `upload_to_instagram` returns the parsed publish
response body, and the platform video identifier is contained in that body
under its `id` field rather than being returned bare. -/
theorem instagram_success_result_wraps_id
    (vp tok uid : String) (net : HttpRequest → HttpResponse) (cid idv : JValue)
    (hget : (net (igCreateReq vp tok uid)).json.get "id" = some cid)
    (hcid : pyTruthy cid = true)
    (hstatus : (net (igPublishReq tok uid cid)).status_code = 200)
    (hid : (net (igPublishReq tok uid cid)).json.get "id" = some idv) :
    ∃ body, (upload_to_instagram vp tok uid net).1 = Except.ok body ∧
      body.get "id" = some idv := by
  refine ⟨(net (igPublishReq tok uid cid)).json, ?_, hid⟩
  unfold upload_to_instagram
  simp [hget, optTruthy, hcid, hstatus]

/-- C8 (amended) witness: in the success scenario the returned body carries
id `final123`. -/
theorem instagram_success_result_wraps_id_witness :
    ∃ body, (upload_to_instagram "v.mp4" "tok" "u1" netOk).1 =
        Except.ok body ∧ body.get "id" = some (JValue.str "final123") :=
  instagram_success_result_wraps_id "v.mp4" "tok" "u1" netOk
    (JValue.str "17895") (JValue.str "final123") rfl rfl rfl rfl

/-- C9: a falsy `id` value in the creation response body (empty string, `0`,
`false` or `null`) behaves exactly like an absent field: the creation
exception is raised and no request goes to the publish endpoint. -/
theorem instagram_falsy_id_treated_as_absent
    (vp tok uid : String) (net : HttpRequest → HttpResponse) (cid : JValue)
    (hget : (net (igCreateReq vp tok uid)).json.get "id" = some cid)
    (hcid : pyTruthy cid = false) :
    (upload_to_instagram vp tok uid net).1 =
      Except.error (IgError.creationError (net (igCreateReq vp tok uid)).text)
    ∧ ((upload_to_instagram vp tok uid net).2.countP
        (fun r => r.url ==
          "https://graph.facebook.com/v17.0/" ++ uid ++ "/media_publish")) = 0 := by
  have hb : ((igCreateReq vp tok uid).url ==
      "https://graph.facebook.com/v17.0/" ++ uid ++ "/media_publish") = false :=
    beq_eq_false_iff_ne.mpr (igCreateReq_url_ne_publish_url vp tok uid)
  unfold upload_to_instagram
  simp [hget, optTruthy, hcid, List.countP, List.countP.go, hb]

/-- C9 witness: each of the four falsy id values `""`, `0`, `false`, `null`
raises the creation exception with zero publish requests. -/
theorem instagram_falsy_id_treated_as_absent_witness :
    ((upload_to_instagram "v.mp4" "tok" "u1" (netIdValue (JValue.str ""))).1 =
        Except.error (IgError.creationError "falsy-id-body")
      ∧ ((upload_to_instagram "v.mp4" "tok" "u1"
            (netIdValue (JValue.str ""))).2.countP
          (fun r => r.url ==
            "https://graph.facebook.com/v17.0/" ++ "u1" ++ "/media_publish")) = 0)
    ∧ ((upload_to_instagram "v.mp4" "tok" "u1" (netIdValue (JValue.num 0))).1 =
        Except.error (IgError.creationError "falsy-id-body")
      ∧ ((upload_to_instagram "v.mp4" "tok" "u1"
            (netIdValue (JValue.num 0))).2.countP
          (fun r => r.url ==
            "https://graph.facebook.com/v17.0/" ++ "u1" ++ "/media_publish")) = 0)
    ∧ ((upload_to_instagram "v.mp4" "tok" "u1"
          (netIdValue (JValue.bool false))).1 =
        Except.error (IgError.creationError "falsy-id-body")
      ∧ ((upload_to_instagram "v.mp4" "tok" "u1"
            (netIdValue (JValue.bool false))).2.countP
          (fun r => r.url ==
            "https://graph.facebook.com/v17.0/" ++ "u1" ++ "/media_publish")) = 0)
    ∧ ((upload_to_instagram "v.mp4" "tok" "u1" (netIdValue JValue.null)).1 =
        Except.error (IgError.creationError "falsy-id-body")
      ∧ ((upload_to_instagram "v.mp4" "tok" "u1"
            (netIdValue JValue.null)).2.countP
          (fun r => r.url ==
            "https://graph.facebook.com/v17.0/" ++ "u1" ++ "/media_publish")) = 0) :=
  ⟨instagram_falsy_id_treated_as_absent "v.mp4" "tok" "u1"
      (netIdValue (JValue.str "")) (JValue.str "") rfl rfl,
   instagram_falsy_id_treated_as_absent "v.mp4" "tok" "u1"
      (netIdValue (JValue.num 0)) (JValue.num 0) rfl rfl,
   instagram_falsy_id_treated_as_absent "v.mp4" "tok" "u1"
      (netIdValue (JValue.bool false)) (JValue.bool false) rfl rfl,
   instagram_falsy_id_treated_as_absent "v.mp4" "tok" "u1"
      (netIdValue JValue.null) JValue.null rfl rfl⟩

/-- C10: the caption sent in the container-creation request is the fixed
string "Posted via AI backend!", independent of all three arguments and of
the network: the first issued request is always the creation request, and its
`caption` form field is that constant. -/
theorem instagram_caption_is_fixed_constant
    (vp tok uid : String) (net : HttpRequest → HttpResponse) :
    (upload_to_instagram vp tok uid net).2.head? =
      some (igCreateReq vp tok uid)
    ∧ (igCreateReq vp tok uid).data.lookup "caption" =
        some (JValue.str "Posted via AI backend!") := by
  constructor
  · unfold upload_to_instagram
    by_cases h : optTruthy ((net (igCreateReq vp tok uid)).json.get "id")
    · by_cases hs : (net (igPublishReq tok uid
          (((net (igCreateReq vp tok uid)).json.get "id").getD
            JValue.null))).status_code = 200 <;>
        simp [h, hs]
    · simp [h]
  · rfl

end HighlightHero
